import Mathlib

/-!
Shallow embedding of `src/app.py` (text-to-image Colab front end).

The verified core is `add_text_overlay` (PIL-based caption compositing) and
`generate_and_save_image` (path derivation and error reporting).  PIL is
modelled by an explicit environment (`PILEnv`): font loaders that may fail
with an `IOError` (modelled as `Except String`), and a text-measurement
function `textbbox`.  An image is its width, height, color mode, an abstract
raster-content id, and the log of drawing operations applied to it; the
drawing primitives `ImageDraw.rectangle` / `ImageDraw.text` append to the log.
Python float coordinates are modelled as rationals (the only arithmetic is
`(w - tw) / 2` and integer sums, exact in ℚ).
-/

namespace App

/-- Abstract handle for a PIL font object (`ImageFont` result). -/
structure Font where
  id : Nat
deriving DecidableEq

/-- Result of `ImageDraw.textbbox((0,0), text, font)`: the four edge
coordinates `(left, top, right, bottom)` of the rendered bounding box. -/
structure BBox where
  left : Int
  top : Int
  right : Int
  bottom : Int
deriving DecidableEq

/-- A fill color as passed to PIL: either an RGBA tuple or a named color
string (the source uses `(0, 0, 0, 128)` and `"white"`). -/
inductive Fill where
  | rgba (r g b a : Nat)
  | named (s : String)
deriving DecidableEq

/-- One drawing operation performed on an image surface. -/
inductive DrawOp where
  | rect (x0 y0 x1 y1 : ℚ) (fill : Fill)
  | text (x y : ℚ) (s : String) (font : Font) (fill : Fill)
deriving DecidableEq

/-- A raster image: dimensions, color mode, an abstract id for the underlying
raster content, and the drawing operations applied so far (oldest first). -/
structure Img where
  width : Nat
  height : Nat
  mode : String
  pixels : Nat
  ops : List DrawOp
deriving DecidableEq

/-- `image.convert(mode)`: returns a new image in the requested mode with the
same dimensions and content. -/
def convert (im : Img) (m : String) : Img :=
  { im with mode := m }

/-- `draw.rectangle([(x0, y0), (x1, y1)], fill=...)` on the surface `im`. -/
def drawRect (im : Img) (x0 y0 x1 y1 : ℚ) (fill : Fill) : Img :=
  { im with ops := im.ops ++ [DrawOp.rect x0 y0 x1 y1 fill] }

/-- `draw.text((x, y), s, font=..., fill=...)` on the surface `im`. -/
def drawText (im : Img) (x y : ℚ) (s : String) (f : Font) (fill : Fill) : Img :=
  { im with ops := im.ops ++ [DrawOp.text x y s f fill] }

/-- The PIL environment seen by `add_text_overlay`: the two font loaders the
source calls (each may raise `IOError`, modelled as `.error`), and text
measurement in a loaded font. -/
structure PILEnv where
  loadDefault : Except String Font
  loadTruetype : String → Nat → Except String Font
  textbbox : Font → String → BBox

/-- The truetype path hard-coded in the source. -/
def dejaVuPath : String := "/usr/share/fonts/truetype/dejavu/DejaVuSans-Bold.ttf"

/-- Font resolution exactly as in `add_text_overlay` (src/app.py lines 60-69):
try `ImageFont.load_default()`; on `IOError` try
`ImageFont.truetype(dejaVuPath, 30)`; on `IOError` print a message and call
`ImageFont.load_default()` again — this last call is NOT inside any `try`, so
if it raises the exception propagates out. -/
def resolveFont (env : PILEnv) : Except String Font :=
  match env.loadDefault with
  | .ok f => .ok f
  | .error _ =>
    match env.loadTruetype dejaVuPath 30 with
    | .ok f => .ok f
    | .error _ => env.loadDefault

/-- `add_text_overlay(image, text)` from src/app.py lines 54-89.  Converts the
image to RGBA, resolves a font, measures the text via `textbbox((0,0), ...)`,
centers horizontally at `x = (image_width - text_width) / 2` (Python float
division, exact in ℚ), places `y = image_height - text_height - 10`, draws the
semi-transparent backing rectangle and then the white caption text, and
returns the drawn-on converted copy.  A font-resolution exception escaping the
fallback chain surfaces as `.error`. -/
def add_text_overlay (env : PILEnv) (image : Img) (text : String) :
    Except String Img :=
  let pil_image := convert image "RGBA"
  match resolveFont env with
  | .error e => .error e
  | .ok font =>
    let bbox := env.textbbox font text
    let text_width : Int := bbox.right - bbox.left
    let text_height : Int := bbox.bottom - bbox.top
    let x : ℚ := ((pil_image.width : ℚ) - (text_width : ℚ)) / 2
    let y : ℚ := (pil_image.height : ℚ) - (text_height : ℚ) - 10
    let pil1 := drawRect pil_image (x - 10) (y - 10)
      (x + (text_width : ℚ) + 10) (y + (text_height : ℚ) + 10) (Fill.rgba 0 0 0 128)
    let pil2 := drawText pil1 x y text font (Fill.named "white")
    .ok pil2

/-- A store of live PIL image objects; a reference is an index into it.  Used
to model object identity and in-place mutation: `ImageDraw.Draw(pil_image)`
draws mutate the referenced image in place. -/
abbrev Store := List Img

/-- `add_text_overlay` at the object level: the caller passes a reference into
the store; `image.convert("RGBA")` allocates a fresh image, and both drawing
calls mutate that fresh image in place (modelled by `List.set` at the fresh
index).  The input reference's cell is never written. -/
def add_text_overlay_store (env : PILEnv) (st : Store) (r : Nat) (text : String) :
    Except String (Store × Nat) :=
  match st[r]? with
  | none => .error "invalid image reference"
  | some image =>
    let pil_image := convert image "RGBA"
    let pr := st.length
    let st1 := st ++ [pil_image]
    match resolveFont env with
    | .error e => .error e
    | .ok font =>
      let bbox := env.textbbox font text
      let text_width : Int := bbox.right - bbox.left
      let text_height : Int := bbox.bottom - bbox.top
      let x : ℚ := ((pil_image.width : ℚ) - (text_width : ℚ)) / 2
      let y : ℚ := (pil_image.height : ℚ) - (text_height : ℚ) - 10
      let c1 := drawRect pil_image (x - 10) (y - 10)
        (x + (text_width : ℚ) + 10) (y + (text_height : ℚ) + 10) (Fill.rgba 0 0 0 128)
      let st2 := st1.set pr c1
      let c2 := drawText c1 x y text font (Fill.named "white")
      let st3 := st2.set pr c2
      .ok (st3, pr)

/-- The drawing operations `add_text_overlay` added on top of the input
image's existing log. -/
def newOps (image out : Img) : List DrawOp :=
  out.ops.drop image.ops.length

/-- First rectangle operation in a log: its two corners and fill. -/
def firstRect : List DrawOp → Option (ℚ × ℚ × ℚ × ℚ × Fill)
  | [] => none
  | DrawOp.rect x0 y0 x1 y1 f :: _ => some (x0, y0, x1, y1, f)
  | DrawOp.text _ _ _ _ _ :: ops => firstRect ops

/-- First text operation in a log: anchor, string, font and fill. -/
def firstText : List DrawOp → Option (ℚ × ℚ × String × Font × Fill)
  | [] => none
  | DrawOp.text x y s f fill :: _ => some (x, y, s, f, fill)
  | DrawOp.rect _ _ _ _ _ :: ops => firstText ops

/-- Python's `s.endswith(suffix)`: `suffix` is a suffix of `s`. -/
def pyEndsWith (s suffix : String) : Bool :=
  suffix.data.isSuffixOf s.data

/-- Python's `s.startswith(pre)`: `pre` is a prefix of `s`. -/
def pyStartsWith (s pre : String) : Bool :=
  pre.data.isPrefixOf s.data

/-- The extension fix in `generate_and_save_image` (src/app.py lines 96-97):
`if not file_name.endswith('.png'): file_name += '.png'`. -/
def ensurePng (file_name : String) : String :=
  if pyEndsWith file_name ".png" then file_name else file_name ++ ".png"

/-- POSIX `os.path.join(a, b)` for one right operand: an absolute `b`
replaces `a`; otherwise the parts are joined with `/` (inserted unless `a` is
empty or already ends in `/`). -/
def posixJoin (a b : String) : String :=
  if pyStartsWith b "/" then b
  else if a = "" || pyEndsWith a "/" then a ++ b
  else a ++ "/" ++ b

/-- The fixed storage root used in src/app.py line 108. -/
def driveRoot : String := "/content/drive/My Drive"

/-- The complete save path `generate_and_save_image` derives for a submitted
file name: extension fix, then `os.path.join(driveRoot, file_name)`. -/
def drivePath (file_name : String) : String :=
  posixJoin driveRoot (ensurePng file_name)

/-- Externally observable events of one `generate_and_save_image` call:
printed lines, the call into the diffusion pipeline, the call into
`add_text_overlay`, the save attempt, and the inline display. -/
inductive Ev where
  | printed (s : String)
  | genCall (d : String)
  | overlayCall (caption : String)
  | saveCall (path : String)
  | displayed (path : String)
deriving DecidableEq

/-- External collaborators of `generate_and_save_image`: the diffusion
pipeline (`pipe(description).images[0]`) and the drive save
(`image_with_text.save(drive_path)`); either may raise. -/
structure GenEnv where
  generate : String → Except String Img
  save : Img → String → Except String Unit

/-- `generate_and_save_image(description, file_name)` from src/app.py lines
91-119, as the trace of its observable events.  An empty description returns
early after one printed message.  Otherwise the extension is fixed, and the
`try` block runs generation, overlay and save; any exception from those steps
is caught and reported as one printed `"Error during image generation: ..."`
line (never re-raised).  On success the saved path is announced, the image is
displayed inline, and the description is echoed. -/
def generate_and_save_image (genv : GenEnv) (penv : PILEnv)
    (description file_name : String) : List Ev :=
  if description = "" then
    [Ev.printed "Description is required!"]
  else
    let fn := ensurePng file_name
    [Ev.printed "Generating image, please wait...", Ev.genCall description] ++
    match genv.generate description with
    | .error e => [Ev.printed ("Error during image generation: " ++ e)]
    | .ok image =>
      [Ev.overlayCall description] ++
      match add_text_overlay penv image description with
      | .error e => [Ev.printed ("Error during image generation: " ++ e)]
      | .ok image_with_text =>
        let drive_path := posixJoin driveRoot fn
        [Ev.saveCall drive_path] ++
        match genv.save image_with_text drive_path with
        | .error e => [Ev.printed ("Error during image generation: " ++ e)]
        | .ok _ =>
          [Ev.printed ("Image saved to Google Drive as " ++ drive_path),
           Ev.displayed drive_path,
           Ev.printed ("Description: " ++ description)]

/-- The first exception (if any) raised inside the `try` block of
`generate_and_save_image`: by generation, by the overlay, or by the save. -/
def pipelineError (genv : GenEnv) (penv : PILEnv)
    (description file_name : String) : Option String :=
  match genv.generate description with
  | .error e => some e
  | .ok image =>
    match add_text_overlay penv image description with
    | .error e => some e
    | .ok image_with_text =>
      match genv.save image_with_text (posixJoin driveRoot (ensurePng file_name)) with
      | .error e => some e
      | .ok _ => none

/-- Whether a trace shows an image reaching the user: an inline display
event (which the source emits only after a successful save). -/
def imageProduced (tr : List Ev) : Bool :=
  tr.any fun ev =>
    match ev with
    | Ev.displayed _ => true
    | _ => false

/-- Decidable equality for `Except`, so concrete runs of the fallible
operations can be checked by `decide`. -/
instance exceptDecEq {ε α : Type} [DecidableEq ε] [DecidableEq α] :
    DecidableEq (Except ε α)
  | Except.ok a, Except.ok b =>
    if h : a = b then isTrue (by rw [h]) else isFalse (fun hc => by cases hc; exact h rfl)
  | Except.ok _, Except.error _ => isFalse (fun hc => by cases hc)
  | Except.error _, Except.ok _ => isFalse (fun hc => by cases hc)
  | Except.error e, Except.error e' =>
    if h : e = e' then isTrue (by rw [h]) else isFalse (fun hc => by cases hc; exact h rfl)

section Concrete

/-- A PIL environment whose default-font load succeeds and whose measurement
assigns each caption a 10-per-character width and height 11. -/
def envOk : PILEnv :=
  { loadDefault := .ok ⟨0⟩
    loadTruetype := fun _ _ => .error "cannot open resource"
    textbbox := fun _ s => ⟨0, 0, 10 * (s.length : Int), 11⟩ }

/-- A PIL environment in which both font loaders fail with `IOError`. -/
def envBad : PILEnv :=
  { loadDefault := .error "io"
    loadTruetype := fun _ _ => .error "io"
    textbbox := fun _ _ => ⟨0, 0, 0, 0⟩ }

/-- A concrete 512×512 RGB input image with an empty drawing log. -/
def img512 : Img :=
  { width := 512, height := 512, mode := "RGB", pixels := 7, ops := [] }

/-- The output `add_text_overlay envOk img512 "a red bicycle"` computes:
text width `130`, height `11`, so `x = 191`, `y = 491`, backing rectangle
from `(181, 481)` to `(331, 512)`, white text at `(191, 491)`. -/
def outBike : Img :=
  { width := 512, height := 512, mode := "RGBA", pixels := 7,
    ops := [DrawOp.rect 181 481 331 512 (Fill.rgba 0 0 0 128),
            DrawOp.text 191 491 "a red bicycle" ⟨0⟩ (Fill.named "white")] }

/-- A pipeline environment whose generation step always raises. -/
def genvFail : GenEnv :=
  { generate := fun _ => .error "boom", save := fun _ _ => .ok () }

end Concrete

/-- `text_width` as computed in `add_text_overlay` (line 73), as a rational:
right edge minus left edge of the measured bounding box. -/
def textW (env : PILEnv) (font : Font) (text : String) : ℚ :=
  (((env.textbbox font text).right - (env.textbbox font text).left : Int) : ℚ)

/-- `text_height` as computed in `add_text_overlay` (line 74), as a rational:
bottom edge minus top edge of the measured bounding box. -/
def textH (env : PILEnv) (font : Font) (text : String) : ℚ :=
  (((env.textbbox font text).bottom - (env.textbbox font text).top : Int) : ℚ)

lemma add_text_overlay_ok_elim {env : PILEnv} {image : Img} {text : String} {out : Img}
    (h : add_text_overlay env image text = .ok out) :
    ∃ font, resolveFont env = .ok font ∧
      out = { width := image.width, height := image.height, mode := "RGBA",
              pixels := image.pixels,
              ops := image.ops ++
                [DrawOp.rect
                   (((image.width : ℚ) - textW env font text) / 2 - 10)
                   ((image.height : ℚ) - textH env font text - 10 - 10)
                   (((image.width : ℚ) - textW env font text) / 2 + textW env font text + 10)
                   ((image.height : ℚ) - textH env font text - 10 + textH env font text + 10)
                   (Fill.rgba 0 0 0 128),
                 DrawOp.text (((image.width : ℚ) - textW env font text) / 2)
                   ((image.height : ℚ) - textH env font text - 10)
                   text font (Fill.named "white")] } := by
  unfold add_text_overlay at h
  cases hf : resolveFont env with
  | error e => rw [hf] at h; cases h
  | ok font =>
    rw [hf] at h
    simp only [convert, drawRect, drawText, Except.ok.injEq] at h
    exact ⟨font, rfl, by rw [← h]; simp [textW, textH]⟩

/-- The drawing operations a successful `add_text_overlay` run appends, in
terms of the source's `x`, `y`, `text_width`, `text_height`. -/
lemma newOps_of_ok {env : PILEnv} {image : Img} {text : String} {font : Font} {out : Img}
    (hf : resolveFont env = .ok font)
    (h : add_text_overlay env image text = .ok out) :
    newOps image out =
      [DrawOp.rect
         (((image.width : ℚ) - textW env font text) / 2 - 10)
         ((image.height : ℚ) - textH env font text - 10 - 10)
         (((image.width : ℚ) - textW env font text) / 2 + textW env font text + 10)
         ((image.height : ℚ) - textH env font text - 10 + textH env font text + 10)
         (Fill.rgba 0 0 0 128),
       DrawOp.text (((image.width : ℚ) - textW env font text) / 2)
         ((image.height : ℚ) - textH env font text - 10)
         text font (Fill.named "white")] := by
  obtain ⟨font', hf', rfl⟩ := add_text_overlay_ok_elim h
  rw [hf] at hf'
  cases hf'
  simp [newOps, List.drop_left]

lemma outBike_run : add_text_overlay envOk img512 "a red bicycle" = .ok outBike := by
  simp only [add_text_overlay, resolveFont, envOk, img512, outBike, convert,
    drawRect, drawText]
  norm_num [show ("a red bicycle".length) = 13 from rfl]

/-- C1: for every input image and caption, `add_text_overlay` returns an
image of the same width and height whose color mode is RGBA, regardless of
the input's original mode. -/
theorem C1_output_size_and_mode (env : PILEnv) (image : Img) (text : String)
    (out : Img) (h : add_text_overlay env image text = .ok out) :
    out.width = image.width ∧ out.height = image.height ∧ out.mode = "RGBA" := by
  obtain ⟨font, -, rfl⟩ := add_text_overlay_ok_elim h
  exact ⟨rfl, rfl, rfl⟩

/-- C1 witness: the 512×512 RGB input yields a 512×512 RGBA output. -/
theorem C1_output_size_and_mode_witness :
    outBike.width = img512.width ∧ outBike.height = img512.height ∧
      outBike.mode = "RGBA" :=
  C1_output_size_and_mode envOk img512 "a red bicycle" outBike outBike_run

/-- C2 counterexample: on the claim's own concrete scenario (512×512 image,
caption "a red bicycle", measured `W = 130`, `H = 11`) the backing rectangle
drawn is `(181, 481)`—`(331, 512)`: its bottom edge is `512`, the image's
bottom edge, not the claimed `512 - 10`. -/
theorem C2_counterexample :
    add_text_overlay envOk img512 "a red bicycle" = .ok outBike ∧
    firstRect (newOps img512 outBike) =
      some (181, 481, 331, 512, Fill.rgba 0 0 0 128) ∧
    firstRect (newOps img512 outBike) ≠
      some (181, 481, 331, 512 - 10, Fill.rgba 0 0 0 128) := by
  refine ⟨outBike_run, rfl, ?_⟩
  intro hcl
  rw [show firstRect (newOps img512 outBike) =
      some (181, 481, 331, 512, Fill.rgba 0 0 0 128) from rfl] at hcl
  simp only [Option.some.injEq, Prod.mk.injEq] at hcl
  have h512 : (512 : ℚ) = 512 - 10 := hcl.2.2.2.1
  norm_num at h512

/-- C2 (amended): the backing plate's bottom edge lies exactly 10 pixels
BELOW the caption's measured bottom edge and coincides with the image's
bottom edge; the caption's bottom edge lies exactly 10 pixels above the
image's bottom edge; the rectangle corners are
`((width-W)/2 - 10, height-H-20)` and `((width-W)/2 + W + 10, height)`. -/
theorem C2_plate_margins (env : PILEnv) (image : Img) (text : String)
    (font : Font) (out : Img)
    (hf : resolveFont env = .ok font)
    (h : add_text_overlay env image text = .ok out) :
    firstRect (newOps image out) =
      some (((image.width : ℚ) - textW env font text) / 2 - 10,
            ((image.height : ℚ) - textH env font text - 10) - 10,
            ((image.width : ℚ) - textW env font text) / 2 + textW env font text + 10,
            ((image.height : ℚ) - textH env font text - 10) + textH env font text + 10,
            Fill.rgba 0 0 0 128) ∧
    ((image.height : ℚ) - textH env font text - 10) - 10 =
      (image.height : ℚ) - textH env font text - 20 ∧
    ((image.height : ℚ) - textH env font text - 10) + textH env font text + 10 =
      (image.height : ℚ) ∧
    ((image.height : ℚ) - textH env font text - 10) + textH env font text =
      (image.height : ℚ) - 10 := by
  rw [newOps_of_ok hf h]
  exact ⟨rfl, by ring, by ring, by ring⟩

/-- C2 (amended) witness: concrete corners `(181, 481)`—`(331, 512)` on the
512×512 scenario, with the two margin identities evaluated. -/
theorem C2_plate_margins_witness :
    firstRect (newOps img512 outBike) =
      some (((img512.width : ℚ) - textW envOk ⟨0⟩ "a red bicycle") / 2 - 10,
            ((img512.height : ℚ) - textH envOk ⟨0⟩ "a red bicycle" - 10) - 10,
            ((img512.width : ℚ) - textW envOk ⟨0⟩ "a red bicycle") / 2 +
              textW envOk ⟨0⟩ "a red bicycle" + 10,
            ((img512.height : ℚ) - textH envOk ⟨0⟩ "a red bicycle" - 10) +
              textH envOk ⟨0⟩ "a red bicycle" + 10,
            Fill.rgba 0 0 0 128) ∧
    ((img512.height : ℚ) - textH envOk ⟨0⟩ "a red bicycle" - 10) - 10 =
      (img512.height : ℚ) - textH envOk ⟨0⟩ "a red bicycle" - 20 ∧
    ((img512.height : ℚ) - textH envOk ⟨0⟩ "a red bicycle" - 10) +
        textH envOk ⟨0⟩ "a red bicycle" + 10 = (img512.height : ℚ) ∧
    ((img512.height : ℚ) - textH envOk ⟨0⟩ "a red bicycle" - 10) +
        textH envOk ⟨0⟩ "a red bicycle" = (img512.height : ℚ) - 10 :=
  C2_plate_margins envOk img512 "a red bicycle" ⟨0⟩ outBike rfl outBike_run

/-- C3: the text anchor's horizontal coordinate is
`x = (image_width - text_width) / 2`, so the caption's horizontal center
`x + text_width / 2` equals the image's horizontal center exactly. -/
theorem C3_horizontal_centering (env : PILEnv) (image : Img) (text : String)
    (font : Font) (out : Img)
    (hf : resolveFont env = .ok font)
    (h : add_text_overlay env image text = .ok out) :
    (firstText (newOps image out)).map (fun c => c.1) =
      some (((image.width : ℚ) - textW env font text) / 2) ∧
    ((image.width : ℚ) - textW env font text) / 2 + textW env font text / 2 =
      (image.width : ℚ) / 2 := by
  rw [newOps_of_ok hf h]
  exact ⟨rfl, by ring⟩

/-- C3 witness: anchor x-coordinate `191` on the 512×512 scenario, and
`191 + 130/2 = 256 = 512/2`. -/
theorem C3_horizontal_centering_witness :
    (firstText (newOps img512 outBike)).map (fun c => c.1) =
      some (((img512.width : ℚ) - textW envOk ⟨0⟩ "a red bicycle") / 2) ∧
    ((img512.width : ℚ) - textW envOk ⟨0⟩ "a red bicycle") / 2 +
        textW envOk ⟨0⟩ "a red bicycle" / 2 = (img512.width : ℚ) / 2 :=
  C3_horizontal_centering envOk img512 "a red bicycle" ⟨0⟩ outBike rfl outBike_run

/-- C4: the text anchor's vertical coordinate is
`y = image_height - text_height - 10`, with `text_height` the measured
bounding-box bottom minus top, for every image and caption. -/
theorem C4_vertical_anchor (env : PILEnv) (image : Img) (text : String)
    (font : Font) (out : Img)
    (hf : resolveFont env = .ok font)
    (h : add_text_overlay env image text = .ok out) :
    (firstText (newOps image out)).map (fun c => c.2.1) =
      some ((image.height : ℚ) -
        (((env.textbbox font text).bottom - (env.textbbox font text).top : Int) : ℚ)
        - 10) := by
  rw [newOps_of_ok hf h]
  rfl

/-- C4 witness: anchor y-coordinate `491 = 512 - 11 - 10` on the concrete
scenario. -/
theorem C4_vertical_anchor_witness :
    (firstText (newOps img512 outBike)).map (fun c => c.2.1) =
      some ((img512.height : ℚ) -
        (((envOk.textbbox ⟨0⟩ "a red bicycle").bottom -
          (envOk.textbbox ⟨0⟩ "a red bicycle").top : Int) : ℚ) - 10) :=
  C4_vertical_anchor envOk img512 "a red bicycle" ⟨0⟩ outBike rfl outBike_run

/-- C5: a successful overlay draws exactly one filled backing rectangle from
`(x-10, y-10)` to `(x+text_width+10, y+text_height+10)` filled RGBA
`(0,0,0,128)`, followed by the caption text in white anchored at `(x, y)`,
and nothing else. -/
theorem C5_draw_sequence (env : PILEnv) (image : Img) (text : String)
    (font : Font) (out : Img)
    (hf : resolveFont env = .ok font)
    (h : add_text_overlay env image text = .ok out) :
    newOps image out =
      [DrawOp.rect
         (((image.width : ℚ) - textW env font text) / 2 - 10)
         ((image.height : ℚ) - textH env font text - 10 - 10)
         (((image.width : ℚ) - textW env font text) / 2 + textW env font text + 10)
         ((image.height : ℚ) - textH env font text - 10 + textH env font text + 10)
         (Fill.rgba 0 0 0 128),
       DrawOp.text (((image.width : ℚ) - textW env font text) / 2)
         ((image.height : ℚ) - textH env font text - 10)
         text font (Fill.named "white")] :=
  newOps_of_ok hf h

/-- C5 witness: the two drawing operations on the concrete scenario. -/
theorem C5_draw_sequence_witness :
    newOps img512 outBike =
      [DrawOp.rect
         (((img512.width : ℚ) - textW envOk ⟨0⟩ "a red bicycle") / 2 - 10)
         ((img512.height : ℚ) - textH envOk ⟨0⟩ "a red bicycle" - 10 - 10)
         (((img512.width : ℚ) - textW envOk ⟨0⟩ "a red bicycle") / 2 +
           textW envOk ⟨0⟩ "a red bicycle" + 10)
         ((img512.height : ℚ) - textH envOk ⟨0⟩ "a red bicycle" - 10 +
           textH envOk ⟨0⟩ "a red bicycle" + 10)
         (Fill.rgba 0 0 0 128),
       DrawOp.text (((img512.width : ℚ) - textW envOk ⟨0⟩ "a red bicycle") / 2)
         ((img512.height : ℚ) - textH envOk ⟨0⟩ "a red bicycle" - 10)
         "a red bicycle" ⟨0⟩ (Fill.named "white")] :=
  C5_draw_sequence envOk img512 "a red bicycle" ⟨0⟩ outBike rfl outBike_run

/-- C7: the backing rectangle's bottom edge is `y + text_height + 10`, which
equals the image height exactly — the plate abuts the image's bottom edge
with zero margin. -/
theorem C7_plate_bottom_abuts (env : PILEnv) (image : Img) (text : String)
    (font : Font) (out : Img)
    (hf : resolveFont env = .ok font)
    (h : add_text_overlay env image text = .ok out) :
    (firstRect (newOps image out)).map (fun c => c.2.2.2.1) =
      some (((image.height : ℚ) - textH env font text - 10) +
        textH env font text + 10) ∧
    ((image.height : ℚ) - textH env font text - 10) + textH env font text + 10 =
      (image.height : ℚ) := by
  rw [newOps_of_ok hf h]
  exact ⟨rfl, by ring⟩

/-- C7 witness: plate bottom edge `512` on the 512×512 scenario. -/
theorem C7_plate_bottom_abuts_witness :
    (firstRect (newOps img512 outBike)).map (fun c => c.2.2.2.1) =
      some (((img512.height : ℚ) - textH envOk ⟨0⟩ "a red bicycle" - 10) +
        textH envOk ⟨0⟩ "a red bicycle" + 10) ∧
    ((img512.height : ℚ) - textH envOk ⟨0⟩ "a red bicycle" - 10) +
        textH envOk ⟨0⟩ "a red bicycle" + 10 = (img512.height : ℚ) :=
  C7_plate_bottom_abuts envOk img512 "a red bicycle" ⟨0⟩ outBike rfl outBike_run

/-- C6 counterexample: when both the default loader and the truetype loader
fail, the final fallback call `ImageFont.load_default()` (outside any `try`)
fails again and the exception escapes `add_text_overlay`. -/
theorem C6_counterexample :
    add_text_overlay envBad img512 "a red bicycle" = .error "io" := rfl

/-- C6 (amended): exceptions from the first two font tiers are caught —
whenever the default loader or the DejaVu truetype loader succeeds, a font is
selected and `add_text_overlay` completes without raising; but if both
loaders fail, the final unguarded default-load re-raises and its exception
escapes the component. -/
theorem C6_font_fallback (env : PILEnv) (image : Img) (text : String) :
    ((env.loadDefault.isOk = true ∨ (env.loadTruetype dejaVuPath 30).isOk = true) →
      (add_text_overlay env image text).isOk = true) ∧
    (∀ e e', env.loadDefault = .error e → env.loadTruetype dejaVuPath 30 = .error e' →
      add_text_overlay env image text = .error e) := by
  constructor
  · intro hok
    cases hd : env.loadDefault with
    | ok f => simp [add_text_overlay, resolveFont, hd, Except.isOk, Except.toBool]
    | error e =>
      cases ht : env.loadTruetype dejaVuPath 30 with
      | ok f => simp [add_text_overlay, resolveFont, hd, ht, Except.isOk, Except.toBool]
      | error e' =>
        rw [hd] at hok
        rw [ht] at hok
        simp [Except.isOk, Except.toBool] at hok
  · intro e e' hd ht
    simp [add_text_overlay, resolveFont, hd, ht]

/-- C6 witness: with a working default loader the overlay completes; with
both loaders failing the `IOError` escapes. -/
theorem C6_font_fallback_witness :
    (add_text_overlay envOk img512 "a red bicycle").isOk = true ∧
    add_text_overlay envBad img512 "hi" = .error "io" :=
  ⟨(C6_font_fallback envOk img512 "a red bicycle").1 (Or.inl rfl),
   (C6_font_fallback envBad img512 "hi").2 "io" "io" rfl rfl⟩

lemma set_append_length {α : Type} (l : List α) (a b : α) :
    (l ++ [a]).set l.length b = l ++ [b] := by
  induction l with
  | nil => rfl
  | cons x xs ih => simp [List.set, ih]

/-- Object-level run of the overlay: `convert` allocates a fresh image at
index `st.length`, both draws mutate only that fresh cell, and the result is
exactly the pure `add_text_overlay` output appended to the untouched store. -/
lemma add_text_overlay_store_eq (env : PILEnv) (st : Store) (r : Nat)
    (text : String) (image : Img) (hr : st[r]? = some image) :
    add_text_overlay_store env st r text =
      (add_text_overlay env image text).map (fun out => (st ++ [out], st.length)) := by
  unfold add_text_overlay_store add_text_overlay
  rw [hr]
  cases hf : resolveFont env with
  | error e => simp [hf, Except.map]
  | ok font => simp [hf, set_append_length, Except.map]

/-- C8: `add_text_overlay` does not mutate its input image: on the object
store, the input reference's cell — and every other pre-existing cell — is
unchanged after the call, the result is a freshly allocated image (a new
reference), and all drawing went into that fresh copy, which holds exactly
the pure `add_text_overlay` output. -/
theorem C8_input_not_mutated (env : PILEnv) (st : Store) (r : Nat)
    (text : String) (st' : Store) (r' : Nat)
    (h : add_text_overlay_store env st r text = .ok (st', r')) :
    ∃ image out, st[r]? = some image ∧
      add_text_overlay env image text = .ok out ∧
      st' = st ++ [out] ∧ r' = st.length ∧
      ∀ i, i < st.length → st'[i]? = st[i]? := by
  cases hr : st[r]? with
  | none =>
    unfold add_text_overlay_store at h
    rw [hr] at h
    cases h
  | some image =>
    rw [add_text_overlay_store_eq env st r text image hr] at h
    cases ho : add_text_overlay env image text with
    | error e => rw [ho] at h; cases h
    | ok out =>
      rw [ho] at h
      simp only [Except.map, Except.ok.injEq, Prod.mk.injEq] at h
      refine ⟨image, out, rfl, ho, h.1.symm, h.2.symm, ?_⟩
      intro i hi
      rw [← h.1, List.getElem?_append, if_pos hi]

/-- C8 witness: running the overlay on a one-image store leaves the input
cell untouched and allocates the output at the fresh index 1. -/
theorem C8_input_not_mutated_witness :
    ∃ image out, (([img512] : Store))[0]? = some image ∧
      add_text_overlay envOk image "a red bicycle" = .ok out ∧
      ([img512, outBike] : Store) = [img512] ++ [out] ∧
      (1 : Nat) = ([img512] : Store).length ∧
      ∀ i, i < ([img512] : Store).length →
        ([img512, outBike] : Store)[i]? = ([img512] : Store)[i]? :=
  C8_input_not_mutated envOk [img512] 0 "a red bicycle" [img512, outBike] 1 (by
    rw [add_text_overlay_store_eq envOk [img512] 0 "a red bicycle" img512 rfl,
      outBike_run]
    rfl)

lemma pyEndsWith_ensurePng (file_name : String) :
    pyEndsWith (ensurePng file_name) ".png" = true := by
  unfold ensurePng
  by_cases hp : pyEndsWith file_name ".png" = true
  · rw [if_pos hp]; exact hp
  · rw [if_neg hp]
    unfold pyEndsWith
    rw [String.data_append, List.isSuffixOf_iff_suffix]
    exact List.suffix_append _ _

lemma pyEndsWith_append_right (s t u : String)
    (h : pyEndsWith u t = true) : pyEndsWith (s ++ u) t = true := by
  unfold pyEndsWith at h ⊢
  rw [String.data_append, List.isSuffixOf_iff_suffix]
  rw [List.isSuffixOf_iff_suffix] at h
  obtain ⟨w, hw⟩ := h
  exact ⟨s.data ++ w, by rw [← hw, List.append_assoc]⟩

/-- C9 counterexample: an absolute submitted file name escapes the fixed
root — `os.path.join` discards the root when its right operand is absolute,
so the save path for `"/tmp/cap"` is `"/tmp/cap.png"`, which does not lie
under `/content/drive/My Drive`. -/
theorem C9_counterexample :
    drivePath "/tmp/cap" = "/tmp/cap.png" ∧
    pyStartsWith (drivePath "/tmp/cap") driveRoot = false := by
  constructor
  · decide
  · decide

/-- C9 (amended): the save path always ends in `.png`; the extension is
appended exactly when the submitted name does not already end in `.png` (a
name already ending in `.png` is used unchanged); and the path lies under the
fixed root `/content/drive/My Drive` whenever the extension-fixed name is not
an absolute path (an absolute name replaces the root, per `os.path.join`). -/
theorem C9_save_path (file_name : String) :
    pyEndsWith (drivePath file_name) ".png" = true ∧
    (ensurePng file_name = file_name ↔ pyEndsWith file_name ".png" = true) ∧
    (pyEndsWith file_name ".png" = false →
      ensurePng file_name = file_name ++ ".png") ∧
    (pyStartsWith (ensurePng file_name) "/" = false →
      drivePath file_name = driveRoot ++ "/" ++ ensurePng file_name) := by
  refine ⟨?_, ⟨?_, ?_⟩, ?_, ?_⟩
  · unfold drivePath posixJoin
    by_cases ha : pyStartsWith (ensurePng file_name) "/" = true
    · rw [if_pos ha]; exact pyEndsWith_ensurePng file_name
    · rw [if_neg ha, if_neg (by decide)]
      exact pyEndsWith_append_right _ _ _ (pyEndsWith_ensurePng file_name)
  · intro he
    by_contra hp
    rw [Bool.not_eq_true] at hp
    unfold ensurePng at he
    rw [if_neg (by simp [hp])] at he
    have hlen := congrArg String.length he
    rw [String.length_append, show (".png").length = 4 from rfl] at hlen
    omega
  · intro hp
    unfold ensurePng
    rw [if_pos hp]
  · intro hp
    unfold ensurePng
    rw [if_neg (by simp [hp])]
  · intro ha
    unfold drivePath posixJoin
    rw [if_neg (by simp [ha]), if_neg (by decide)]

/-- C9 witness: for the relative name `"photo"` the extension is appended and
the path sits under the root; for `"photo.png"` the name is unchanged. -/
theorem C9_save_path_witness :
    pyEndsWith (drivePath "photo") ".png" = true ∧
    ensurePng "photo" = "photo" ++ ".png" ∧
    drivePath "photo" = driveRoot ++ "/" ++ ensurePng "photo" ∧
    ensurePng "photo.png" = "photo.png" :=
  ⟨(C9_save_path "photo").1,
   (C9_save_path "photo").2.2.1 (by decide),
   (C9_save_path "photo").2.2.2 (by decide),
   ((C9_save_path "photo.png").2.1).2 (by decide)⟩

/-- C10: in `generate_and_save_image`, an empty description returns early
with only the "Description is required!" message — no generation, overlay or
save event happens; and any exception raised by generation, overlay or save
is caught and reported as the final printed
`"Error during image generation: ..."` line, never re-raised, with no image
displayed. -/
theorem C10_error_reporting (genv : GenEnv) (penv : PILEnv)
    (description file_name : String) :
    (description = "" →
      generate_and_save_image genv penv description file_name =
        [Ev.printed "Description is required!"]) ∧
    (description ≠ "" →
      ∀ e, pipelineError genv penv description file_name = some e →
        (generate_and_save_image genv penv description file_name).getLast? =
          some (Ev.printed ("Error during image generation: " ++ e)) ∧
        imageProduced (generate_and_save_image genv penv description file_name) =
          false) := by
  constructor
  · intro hd
    simp [generate_and_save_image, hd]
  · intro hd e he
    unfold generate_and_save_image
    unfold pipelineError at he
    rw [if_neg hd]
    cases hg : genv.generate description with
    | error e1 =>
      simp only [hg, Option.some.injEq] at he
      subst he
      simp [hg, imageProduced, List.getLast?]
    | ok image =>
      simp only [hg] at he
      cases ho : add_text_overlay penv image description with
      | error e1 =>
        simp only [ho, Option.some.injEq] at he
        subst he
        simp [hg, ho, imageProduced, List.getLast?]
      | ok image_with_text =>
        simp only [ho] at he
        cases hs : genv.save image_with_text
            (posixJoin driveRoot (ensurePng file_name)) with
        | error e1 =>
          simp only [hs, Option.some.injEq] at he
          subst he
          simp [hg, ho, hs, imageProduced, List.getLast?]
        | ok u =>
          simp only [hs] at he
          cases he

/-- C10 witness: a failing generator on a non-empty description ends the
trace with the caught error message and displays nothing; an empty
description yields only the early-return message. -/
theorem C10_error_reporting_witness :
    generate_and_save_image genvFail envOk "" "pic" =
      [Ev.printed "Description is required!"] ∧
    (generate_and_save_image genvFail envOk "a cat" "pic").getLast? =
      some (Ev.printed ("Error during image generation: " ++ "boom")) ∧
    imageProduced (generate_and_save_image genvFail envOk "a cat" "pic") = false :=
  ⟨(C10_error_reporting genvFail envOk "" "pic").1 rfl,
   (C10_error_reporting genvFail envOk "a cat" "pic").2 (by decide) "boom" rfl⟩

end App
